import Mathlib

/-!
Shallow embedding of the "Last Entries" refresh controller of
`delta-green-player-ui` (`scripts/ui-components.js`), the part of the module
the specification calls `EntryRefreshController`, together with the record
ordering and label rendering helpers it uses.

State fields mirror the static fields of the `DeltaGreenUI` class:
`isLoadingEntries`, `lastSuccessfulLoad`, `consecutiveErrors`,
`refreshIntervalId` (modelled as `Option Nat` carrying the cadence in
milliseconds of the running recurring timer, `none` when stopped) and the
armed watchdog timeout (modelled as `Option Nat` carrying its deadline).
The DOM list `#dg-last-entries-list` is modelled as `Option (List Row)`
(`none` when the element is absent from the DOM).

Timer callbacks are embedded as explicit functions on the state
(`watchdogCallback` is the body of the `setTimeout` armed at the start of a
load cycle); a load cycle that completes runs `loadLastEntries` to the end,
a cycle whose body hangs is modelled as `startLoading` followed by
`watchdogCallback` at the deadline.
-/

namespace DGUI

/-- A rendered row of the Last Entries list: the "No recent entries found"
placeholder, the "Error loading entries" placeholder, or an actor row with
its `data-actor-id` and its visible label. -/
inductive Row where
  | noEntries : Row
  | errorRow : Row
  | actorRow (id : String) (label : String) : Row
deriving DecidableEq, Repr

/-- A Foundry actor as seen by this module: its id, its generic name, the id
of the folder it sits in (if any), and the three module flags read by
`_generateActorsHTML` (`none` models an unset flag). -/
structure Actor where
  id : String
  name : String
  folder : Option String
  firstName : Option String
  surname : Option String
  middleName : Option String
deriving DecidableEq, Repr

/-- The controller state: the static fields of `DeltaGreenUI` plus the
armed watchdog timeout and the DOM list content. -/
structure St where
  isLoadingEntries : Bool
  lastSuccessfulLoad : Nat
  consecutiveErrors : Nat
  refreshIntervalId : Option Nat
  watchdog : Option Nat
  listContent : Option (List Row)
deriving DecidableEq, Repr

/-- Environment of one call to `loadLastEntries`: whether the LAST ENTRIES
section exists so `_createEntriesList` can create the list, the result of
`_getPCRecordsFolder` (a folder id), the global `game.actors` collection,
and whether the DOM rendering step throws. -/
structure LoadEnv where
  canCreateList : Bool
  folder : Option String
  actors : List Actor
  renderThrows : Bool
deriving DecidableEq, Repr

/-- Environment of a call to `forceDisplayLastEntries`: whether the
interface is active and whether the LAST ENTRIES section is in the DOM. -/
structure ForceEnv where
  interfaceActive : Bool
  sectionExists : Bool
deriving DecidableEq, Repr

/-- JavaScript `flag || defaultString`: an unset flag (`none`) and the empty
string are both falsy and fall back to the default. -/
def flagOr (o : Option String) (d : String) : String :=
  match o with
  | none => d
  | some s => if s = "" then d else s

/-- `id.replace(/[^0-9]/g, '')`: keep only the digit characters. -/
def digitsOf (s : String) : String :=
  String.mk (s.data.filter Char.isDigit)

/-- Decimal value of a digit character. -/
def digitVal (c : Char) : Nat :=
  c.toNat - 48

/-- Value of a string of decimal digits, most significant first (the value
`parseInt` gives a pure digit string); the empty digit string gives `0`. -/
def parseDigits : List Char → Nat → Nat
  | [], acc => acc
  | c :: l, acc => parseDigits l (acc * 10 + digitVal c)

/-- `parseInt(id.replace(/[^0-9]/g, '') || '0')` from the sort comparator of
`_getRecentActors`: the number embedded in an id, `0` when there is none. -/
def extractNum (id : String) : Nat :=
  parseDigits (digitsOf id).data 0

/-- The sort key `_getRecentActors` extracts from an actor. -/
def actorSortKey (a : Actor) : Nat :=
  extractNum a.id

/-- Insert `x` into `l` before the first element whose key is not strictly
greater: this is the stable descending insertion realising the semantics of
JavaScript stable `Array.prototype.sort` with comparator `bNum - aNum`. -/
def insertDescBy (key : α → Nat) (x : α) : List α → List α
  | [] => [x]
  | b :: l => if key x < key b then b :: insertDescBy key x l else x :: b :: l

/-- Stable descending sort by `key` (insertion sort), the semantics of the
stable JavaScript `sort` call in `_getRecentActors`. -/
def sortDescBy (key : α → Nat) : List α → List α
  | [] => []
  | a :: l => insertDescBy key a (sortDescBy key l)

/-- `game.actors.filter(a => a.folder?.id === folder.id)`. -/
def actorsOfFolder (actors : List Actor) (folderId : String) : List Actor :=
  actors.filter (fun a => a.folder = some folderId)

/-- `_hasActorsInFolder`: whether the folder contains at least one actor. -/
def hasActorsInFolder (actors : List Actor) (folderId : String) : Bool :=
  decide (0 < (actorsOfFolder actors folderId).length)

/-- `_getRecentActors`: the folder's actors sorted by descending embedded
number (stable), truncated to the first `min 3 length` of them. -/
def getRecentActors (actors : List Actor) (folderId : String) : List Actor :=
  let allActors := actorsOfFolder actors folderId
  (sortDescBy actorSortKey allActors).take (min 3 allActors.length)

/-- The visible label `_generateActorsHTML` builds for one actor: flags with
their defaults, then the generic `actor.name` when both `firstName` is empty
and `reference` is `"UNKNOWN"`, else `REFERENCE - FIRSTNAME MIDDLENAME`. -/
def actorLabel (a : Actor) : String :=
  let firstName := flagOr a.firstName ""
  let reference := flagOr a.surname "UNKNOWN"
  let middleName := flagOr a.middleName ""
  if firstName = "" ∧ reference = "UNKNOWN" then a.name
  else reference ++ " - " ++ firstName ++ " " ++ middleName

/-- `_generateActorsHTML`: one `<li>` row per actor, carrying the actor id
and the label. -/
def generateActorsHTML (actors : List Actor) : List Row :=
  actors.map (fun a => Row.actorRow a.id (actorLabel a))

/-- `_finishLoading(loadTimeout, success)`: cancel the watchdog, clear
`isLoadingEntries`; on success stamp `lastSuccessfulLoad`, zero
`consecutiveErrors` and (when a recurring timer is running) reschedule it at
the normal 500ms cadence; on failure increment `consecutiveErrors`. -/
def finishLoading (st : St) (success : Bool) (now : Nat) : St :=
  let st1 : St := { st with watchdog := none, isLoadingEntries := false }
  if success then
    let st2 : St := { st1 with lastSuccessfulLoad := now, consecutiveErrors := 0 }
    if st2.refreshIntervalId.isSome ∧ st2.consecutiveErrors = 0 then
      { st2 with refreshIntervalId := some 500 }
    else st2
  else
    { st1 with consecutiveErrors := st1.consecutiveErrors + 1 }

/-- The body of the 3000ms `setTimeout` armed by `loadLastEntries`: force
completion (`isLoadingEntries := false`), count an error, and when the
incremented error count exceeds 3 with the recurring timer running,
reschedule that timer at the degraded 2000ms cadence. Firing consumes the
one-shot timeout (`watchdog := none`). -/
def watchdogCallback (st : St) : St :=
  let st1 : St := { st with watchdog := none, isLoadingEntries := false,
                            consecutiveErrors := st.consecutiveErrors + 1 }
  if 3 < st1.consecutiveErrors ∧ st1.refreshIntervalId.isSome then
    { st1 with refreshIntervalId := some 2000 }
  else st1

/-- The prefix of a load cycle once both guards have passed: mark loading in
progress and arm the 3000ms watchdog. A cycle whose body hangs stays in this
state until the watchdog fires. -/
def startLoading (st : St) (now : Nat) : St :=
  { st with isLoadingEntries := true, watchdog := some (now + 3000) }

/-- `loadLastEntries`, a complete synchronous run of one call: the
single-flight guard, the 300ms debounce against `lastSuccessfulLoad`, then
the try block (obtain or create the list, clear it, render the empty-folder
placeholder or the recent actors) and the catch branch (render the error
placeholder, finish as failure). -/
def loadLastEntries (st : St) (now : Nat) (env : LoadEnv) : St :=
  if st.isLoadingEntries then st
  else if now - st.lastSuccessfulLoad < 300 then st
  else
    let st1 := startLoading st now
    if st1.listContent = none ∧ env.canCreateList = false then
      { st1 with watchdog := none, isLoadingEntries := false }
    else
      let st2 : St := { st1 with listContent := some [] }
      match env.folder with
      | none => finishLoading { st2 with listContent := some [Row.noEntries] } true now
      | some fid =>
        if hasActorsInFolder env.actors fid = false then
          finishLoading { st2 with listContent := some [Row.noEntries] } true now
        else if env.renderThrows then
          finishLoading { st2 with listContent := some [Row.errorRow] } false now
        else
          finishLoading
            { st2 with listContent := some (generateActorsHTML (getRecentActors env.actors fid)) }
            true now

/-- `forceDisplayLastEntries`: abort when the interface is inactive or the
LAST ENTRIES section is missing; create the list when absent; call
`loadLastEntries` only when the list has no children, otherwise preserve the
rendered content. -/
def forceDisplayLastEntries (st : St) (now : Nat) (fenv : ForceEnv) (env : LoadEnv) : St :=
  if fenv.interfaceActive = false then st
  else if fenv.sectionExists = false then st
  else
    let st1 : St :=
      match st.listContent with
      | none => { st with listContent := some [] }
      | some _ => st
    match st1.listContent with
    | some [] => loadLastEntries st1 now env
    | _ => st1

/-! Concrete sample data used by counterexamples and witnesses. -/

/-- A record in the PC Records folder with no module flags set. -/
def exActor (i : String) : Actor :=
  { id := i, name := "record-" ++ i, folder := some "pcrecords",
    firstName := none, surname := none, middleName := none }

/-- The three records of the specification's ordering example P6. -/
def exActors : List Actor :=
  [exActor "actor-9", exActor "actor-123", exActor "actor-45"]

/-- An idle controller state with the recurring timer running at 500ms. -/
def exSt : St :=
  { isLoadingEntries := false, lastSuccessfulLoad := 0, consecutiveErrors := 0,
    refreshIntervalId := some 500, watchdog := none, listContent := some [] }

/-- A load environment in which the cycle succeeds. -/
def exEnvOk : LoadEnv :=
  { canCreateList := true, folder := some "pcrecords", actors := exActors,
    renderThrows := false }

/-- A load environment in which the render step throws. -/
def exEnvFail : LoadEnv :=
  { canCreateList := true, folder := some "pcrecords", actors := exActors,
    renderThrows := true }

/-- A load environment with no PC Records folder. -/
def exEnvEmpty : LoadEnv :=
  { canCreateList := true, folder := none, actors := [], renderThrows := false }

/-- `exSt` after five consecutive failures. -/
def errSt : St :=
  { exSt with consecutiveErrors := 5 }

/-- A record whose surname flag is unset but whose firstName flag is set. -/
def c7Actor : Actor :=
  { id := "abc123", name := "Generic Record", folder := some "pcrecords",
    firstName := some "John", surname := none, middleName := none }

/-- `exSt` with the recurring timer degraded to the 2000ms cadence. -/
def degSt : St :=
  { exSt with refreshIntervalId := some 2000 }

/-- `exSt` with the recurring timer stopped. -/
def stoppedSt : St :=
  { exSt with refreshIntervalId := none }

/-- `exSt` with a non-empty rendered list. -/
def fullSt : St :=
  { exSt with listContent := some [Row.noEntries] }

/-! Helper lemmas about the stable descending insertion sort. -/

theorem insertDescBy_perm (key : α → Nat) (x : α) (l : List α) :
    (insertDescBy key x l).Perm (x :: l) := by
  induction l with
  | nil => simp [insertDescBy]
  | cons b l ih =>
    simp only [insertDescBy]
    split
    · exact (ih.cons b).trans (List.Perm.swap x b l)
    · exact List.Perm.refl _

theorem sortDescBy_perm (key : α → Nat) (l : List α) :
    (sortDescBy key l).Perm l := by
  induction l with
  | nil => exact List.Perm.refl _
  | cons a l ih => exact (insertDescBy_perm key a _).trans (ih.cons a)

theorem insertDescBy_pairwise (key : α → Nat) (x : α) (l : List α)
    (h : l.Pairwise (fun a b => key b ≤ key a)) :
    (insertDescBy key x l).Pairwise (fun a b => key b ≤ key a) := by
  induction l with
  | nil => simp [insertDescBy]
  | cons b l ih =>
    rcases List.pairwise_cons.mp h with ⟨hb, hl⟩
    simp only [insertDescBy]
    split
    case isTrue hxb =>
      refine List.pairwise_cons.mpr ⟨?_, ih hl⟩
      intro c hc
      rcases List.mem_cons.mp ((insertDescBy_perm key x l).mem_iff.mp hc) with rfl | hcl
      · exact Nat.le_of_lt hxb
      · exact hb c hcl
    case isFalse hxb =>
      refine List.pairwise_cons.mpr ⟨?_, h⟩
      intro c hc
      rcases List.mem_cons.mp hc with rfl | hcl
      · exact Nat.le_of_not_lt hxb
      · exact Nat.le_trans (hb c hcl) (Nat.le_of_not_lt hxb)

theorem sortDescBy_pairwise (key : α → Nat) (l : List α) :
    (sortDescBy key l).Pairwise (fun a b => key b ≤ key a) := by
  induction l with
  | nil => simp [sortDescBy]
  | cons a l ih => exact insertDescBy_pairwise key a _ ih

theorem filter_insertDescBy (key : α → Nat) (x : α) (l : List α) (k : Nat) :
    (insertDescBy key x l).filter (fun a => key a == k)
      = if key x = k then x :: l.filter (fun a => key a == k)
        else l.filter (fun a => key a == k) := by
  induction l with
  | nil =>
    by_cases hx : key x = k <;>
      simp [insertDescBy, List.filter_cons, List.filter_nil, hx]
  | cons b l ih =>
    simp only [insertDescBy]
    split
    case isTrue hxb =>
      by_cases hx : key x = k
      · have hbk : ¬ key b = k := by omega
        simp [List.filter_cons, hx, hbk, ih]
      · by_cases hbk : key b = k <;> simp [List.filter_cons, hx, hbk, ih]
    case isFalse hxb =>
      by_cases hx : key x = k <;> simp [List.filter_cons, hx]

theorem filter_sortDescBy (key : α → Nat) (l : List α) (k : Nat) :
    (sortDescBy key l).filter (fun a => key a == k)
      = l.filter (fun a => key a == k) := by
  induction l with
  | nil => rfl
  | cons a l ih =>
    by_cases ha : key a = k <;>
      simp [sortDescBy, filter_insertDescBy, List.filter_cons, ha, ih]

/-! Helper lemmas about `finishLoading` and `loadLastEntries`. -/

theorem finishLoading_isLoading (st : St) (success : Bool) (now : Nat) :
    (finishLoading st success now).isLoadingEntries = false := by
  rcases success <;> rcases h : st.refreshIntervalId with _ | c <;>
    simp [finishLoading, h]

theorem finishLoading_watchdog (st : St) (success : Bool) (now : Nat) :
    (finishLoading st success now).watchdog = none := by
  rcases success <;> rcases h : st.refreshIntervalId with _ | c <;>
    simp [finishLoading, h]

theorem finishLoading_listContent (st : St) (success : Bool) (now : Nat) :
    (finishLoading st success now).listContent = st.listContent := by
  rcases success <;> rcases h : st.refreshIntervalId with _ | c <;>
    simp [finishLoading, h]

theorem finishLoading_true_lastLoad (st : St) (now : Nat) :
    (finishLoading st true now).lastSuccessfulLoad = now := by
  rcases h : st.refreshIntervalId with _ | c <;> simp [finishLoading, h]

theorem finishLoading_true_errors (st : St) (now : Nat) :
    (finishLoading st true now).consecutiveErrors = 0 := by
  rcases h : st.refreshIntervalId with _ | c <;> simp [finishLoading, h]

theorem finishLoading_true_refresh (st : St) (now : Nat) :
    (finishLoading st true now).refreshIntervalId
      = if st.refreshIntervalId.isSome then some 500 else st.refreshIntervalId := by
  simp only [finishLoading]
  rcases h : st.refreshIntervalId with _ | c <;> simp [h]

theorem finishLoading_false_errors (st : St) (now : Nat) :
    (finishLoading st false now).consecutiveErrors = st.consecutiveErrors + 1 := rfl

theorem finishLoading_false_lastLoad (st : St) (now : Nat) :
    (finishLoading st false now).lastSuccessfulLoad = st.lastSuccessfulLoad := rfl

theorem finishLoading_false_refresh (st : St) (now : Nat) :
    (finishLoading st false now).refreshIntervalId = st.refreshIntervalId := rfl

/-- A call made while a load is already in flight is a no-op. -/
theorem load_inflight_noop (st : St) (now : Nat) (env : LoadEnv)
    (hL : st.isLoadingEntries = true) :
    loadLastEntries st now env = st := by
  simp [loadLastEntries, hL]

/-- A call made less than 300ms after the last successful load is a no-op. -/
theorem load_debounced (st : St) (now : Nat) (env : LoadEnv)
    (hL : st.isLoadingEntries = false) (hD : now - st.lastSuccessfulLoad < 300) :
    loadLastEntries st now env = st := by
  simp [loadLastEntries, hL, hD]

/-- Any complete run of `loadLastEntries` ends with the loading flag down. -/
theorem load_run_isLoading (st : St) (now : Nat) (env : LoadEnv)
    (hL : st.isLoadingEntries = false) :
    (loadLastEntries st now env).isLoadingEntries = false := by
  simp only [loadLastEntries, hL, Bool.false_eq_true, if_false]
  split
  · exact hL
  · split
    · rfl
    · split
      · exact finishLoading_isLoading _ _ _
      · split
        · exact finishLoading_isLoading _ _ _
        · split <;> exact finishLoading_isLoading _ _ _

/-- Any run of `loadLastEntries` that passes both guards ends with the
watchdog cancelled. -/
theorem load_run_watchdog (st : St) (now : Nat) (env : LoadEnv)
    (hL : st.isLoadingEntries = false)
    (hD : ¬ now - st.lastSuccessfulLoad < 300) :
    (loadLastEntries st now env).watchdog = none := by
  simp only [loadLastEntries, hL, Bool.false_eq_true, if_false, hD]
  split
  · rfl
  · split
    · exact finishLoading_watchdog _ _ _
    · split
      · exact finishLoading_watchdog _ _ _
      · split <;> exact finishLoading_watchdog _ _ _

/-- A cycle succeeds when the folder is missing, the folder is empty, or
the render step does not throw: `lastSuccessfulLoad` is stamped with the
call time, the error counter resets, and the recurring timer (when running)
is rescheduled at the normal 500ms cadence. -/
theorem load_success_facts (st : St) (now : Nat) (env : LoadEnv)
    (hL : st.isLoadingEntries = false)
    (hD : ¬ now - st.lastSuccessfulLoad < 300)
    (hList : ¬ (st.listContent = none ∧ env.canCreateList = false))
    (hS : env.folder = none
      ∨ (∃ fid, env.folder = some fid ∧ hasActorsInFolder env.actors fid = false)
      ∨ env.renderThrows = false) :
    (loadLastEntries st now env).lastSuccessfulLoad = now ∧
    (loadLastEntries st now env).consecutiveErrors = 0 ∧
    (loadLastEntries st now env).refreshIntervalId
      = if st.refreshIntervalId.isSome then some 500 else st.refreshIntervalId := by
  simp only [loadLastEntries, hL, Bool.false_eq_true, if_false, hD, startLoading]
  split
  case isTrue h => exact absurd h hList
  case isFalse h =>
    rcases hf : env.folder with _ | fid
    · exact ⟨finishLoading_true_lastLoad _ _, finishLoading_true_errors _ _,
             finishLoading_true_refresh _ _⟩
    · rcases hA : hasActorsInFolder env.actors fid with _ | _
      · simp only [hA, if_pos rfl]
        exact ⟨finishLoading_true_lastLoad _ _, finishLoading_true_errors _ _,
               finishLoading_true_refresh _ _⟩
      · have hOk : env.renderThrows = false := by
          rcases hS with hf2 | ⟨fid2, hf2, hA2⟩ | hOk
          · rw [hf] at hf2; cases hf2
          · rw [hf] at hf2
            cases hf2
            rw [hA] at hA2; cases hA2
          · exact hOk
        simp only [hA, Bool.true_eq_false, if_false, hOk, Bool.false_eq_true]
        exact ⟨finishLoading_true_lastLoad _ _, finishLoading_true_errors _ _,
               finishLoading_true_refresh _ _⟩

/-- A cycle whose render step throws runs the catch branch: the list shows
the error placeholder and the run ends through `_finishLoading` with
`success = false`. -/
theorem load_failure_eq (st : St) (now : Nat) (env : LoadEnv) (fid : String)
    (hL : st.isLoadingEntries = false)
    (hD : ¬ now - st.lastSuccessfulLoad < 300)
    (hList : ¬ (st.listContent = none ∧ env.canCreateList = false))
    (hFolder : env.folder = some fid)
    (hActors : hasActorsInFolder env.actors fid = true)
    (hThrow : env.renderThrows = true) :
    loadLastEntries st now env
      = finishLoading
          { st with isLoadingEntries := true, watchdog := some (now + 3000),
                    listContent := some [Row.errorRow] }
          false now := by
  simp only [loadLastEntries, hL, Bool.false_eq_true, if_false, hD, startLoading, hFolder]
  split
  case isTrue h => exact absurd h hList
  case isFalse h =>
    simp only [hActors, Bool.true_eq_false, if_false, hThrow, if_pos rfl]

/-- `_finishLoading` never creates a recurring timer. -/
theorem finishLoading_refresh_none (st : St) (success : Bool) (now : Nat)
    (h : st.refreshIntervalId = none) :
    (finishLoading st success now).refreshIntervalId = none := by
  rcases success <;> simp [finishLoading, h]

/-- A `loadLastEntries` call never creates a recurring timer. -/
theorem load_refresh_none (st : St) (now : Nat) (env : LoadEnv)
    (h : st.refreshIntervalId = none) :
    (loadLastEntries st now env).refreshIntervalId = none := by
  simp only [loadLastEntries]
  split
  · exact h
  · split
    · exact h
    · split
      · exact h
      · split
        · exact finishLoading_refresh_none _ _ _ h
        · split
          · exact finishLoading_refresh_none _ _ _ h
          · split <;> exact finishLoading_refresh_none _ _ _ h

/-- A cycle that finds no folder (or an empty one) renders exactly the
"No recent entries found" placeholder. -/
theorem load_empty_listContent (st : St) (now : Nat) (env : LoadEnv)
    (hL : st.isLoadingEntries = false)
    (hD : ¬ now - st.lastSuccessfulLoad < 300)
    (hList : ¬ (st.listContent = none ∧ env.canCreateList = false))
    (hEmpty : env.folder = none
      ∨ ∃ fid, env.folder = some fid ∧ hasActorsInFolder env.actors fid = false) :
    (loadLastEntries st now env).listContent = some [Row.noEntries] := by
  simp only [loadLastEntries, hL, Bool.false_eq_true, if_false, hD, startLoading]
  split
  case isTrue h => exact absurd h hList
  case isFalse h =>
    rcases hEmpty with hf | ⟨fid, hf, hA⟩ <;> simp only [hf]
    · rw [finishLoading_listContent]
    · simp only [hA, if_true]
      rw [finishLoading_listContent]

/-! Claim theorems. -/

/-- C1 counterexample: a render-throw failure that brings
`consecutiveErrors` to 6 with the recurring timer running leaves the timer
at the 500ms cadence instead of rescheduling it at the degraded 2000ms
cadence; and a watchdog fire leaves the rendered list untouched instead of
rendering an error placeholder. -/
theorem C1_counterexample :
    3 < (loadLastEntries errSt 1000 exEnvFail).consecutiveErrors ∧
    (loadLastEntries errSt 1000 exEnvFail).refreshIntervalId = some 500 ∧
    (watchdogCallback (startLoading exSt 1000)).listContent = some [] := by
  decide

/-- C1 (amended): on a failing load cycle the controller increments
`consecutiveErrors`; the catch path (data source or renderer throws)
cancels the watchdog and renders the error placeholder but never changes
the recurring timer's cadence, while the watchdog path renders no
placeholder and reschedules the recurring timer at the degraded 2000ms
cadence exactly when the incremented `consecutiveErrors` exceeds 3 with the
timer running. -/
theorem C1_failure_handling (st st2 : St) (now : Nat) (env : LoadEnv) (fid : String)
    (hL : st.isLoadingEntries = false)
    (hD : ¬ now - st.lastSuccessfulLoad < 300)
    (hList : ¬ (st.listContent = none ∧ env.canCreateList = false))
    (hFolder : env.folder = some fid)
    (hActors : hasActorsInFolder env.actors fid = true)
    (hThrow : env.renderThrows = true) :
    (loadLastEntries st now env).watchdog = none ∧
    (loadLastEntries st now env).isLoadingEntries = false ∧
    (loadLastEntries st now env).consecutiveErrors = st.consecutiveErrors + 1 ∧
    (loadLastEntries st now env).listContent = some [Row.errorRow] ∧
    (loadLastEntries st now env).refreshIntervalId = st.refreshIntervalId ∧
    (watchdogCallback st2).isLoadingEntries = false ∧
    (watchdogCallback st2).consecutiveErrors = st2.consecutiveErrors + 1 ∧
    (watchdogCallback st2).listContent = st2.listContent ∧
    (watchdogCallback st2).refreshIntervalId
      = (if 3 < st2.consecutiveErrors + 1 ∧ st2.refreshIntervalId.isSome
         then some 2000 else st2.refreshIntervalId) := by
  rw [load_failure_eq st now env fid hL hD hList hFolder hActors hThrow]
  refine ⟨rfl, rfl, rfl, rfl, rfl, ?_, ?_, ?_, ?_⟩
  · simp only [watchdogCallback]
    split <;> rfl
  · simp only [watchdogCallback]
    split <;> rfl
  · simp only [watchdogCallback]
    split <;> rfl
  · by_cases hC : 3 < st2.consecutiveErrors + 1 ∧ st2.refreshIntervalId.isSome = true <;>
      simp [watchdogCallback, hC]

/-- C1 witness: the amended failure handling instantiated on a concrete
failing cycle. -/
theorem C1_failure_handling_witness :
    (loadLastEntries exSt 1000 exEnvFail).consecutiveErrors = 1 :=
  (C1_failure_handling exSt exSt 1000 exEnvFail "pcrecords"
    rfl (by decide) (by decide) rfl (by decide) rfl).2.2.1

/-- C2 counterexample: with a failing first cycle, two calls issued 100ms
apart (at t=1000 and t=1100) both execute full load cycles — the debounce
compares against the last successful load, which a failing cycle does not
update — so the later call is not a silent no-op and two cycles execute. -/
theorem C2_counterexample :
    (loadLastEntries exSt 1000 exEnvFail).consecutiveErrors = 1 ∧
    (loadLastEntries (loadLastEntries exSt 1000 exEnvFail) 1100 exEnvFail).consecutiveErrors
      = 2 ∧
    loadLastEntries (loadLastEntries exSt 1000 exEnvFail) 1100 exEnvFail
      ≠ loadLastEntries exSt 1000 exEnvFail := by
  decide

/-- C2 (amended): two calls less than 300ms apart execute at most one
successful load cycle — when the earlier call's cycle completes
successfully, the later call returns immediately and silently as a no-op;
after a failing first cycle a later call within 300ms does execute its own
load cycle (see the counterexample). -/
theorem C2_debounce (st : St) (t1 t2 : Nat) (env env2 : LoadEnv)
    (hL : st.isLoadingEntries = false)
    (hD : ¬ t1 - st.lastSuccessfulLoad < 300)
    (hList : ¬ (st.listContent = none ∧ env.canCreateList = false))
    (hS : env.folder = none
      ∨ (∃ fid, env.folder = some fid ∧ hasActorsInFolder env.actors fid = false)
      ∨ env.renderThrows = false)
    (hNear : t2 - t1 < 300) :
    loadLastEntries (loadLastEntries st t1 env) t2 env2 = loadLastEntries st t1 env := by
  have h1 := load_run_isLoading st t1 env hL
  have h2 := (load_success_facts st t1 env hL hD hList hS).1
  exact load_debounced _ t2 env2 h1 (by rw [h2]; exact hNear)

/-- C2 witness: the debounce instantiated on a successful cycle at t=1000
followed by a call at t=1100. -/
theorem C2_debounce_witness :
    loadLastEntries (loadLastEntries exSt 1000 exEnvOk) 1100 exEnvOk
      = loadLastEntries exSt 1000 exEnvOk :=
  C2_debounce exSt 1000 1100 exEnvOk exEnvOk rfl (by decide) (by decide)
    (Or.inr (Or.inr rfl)) (by decide)

/-- C3: load cycles are single-flight — a call made while
`isLoadingEntries` is true returns immediately as an identity no-op; a call
starting from a non-loading state completes with `isLoadingEntries` false
again; the flag is raised at cycle start and lowered by every completion
path (watchdog fire or `_finishLoading`), so it is true only between a
cycle's start and its completion. -/
theorem C3_single_flight (st : St) (now : Nat) (env : LoadEnv) :
    (st.isLoadingEntries = true → loadLastEntries st now env = st) ∧
    (st.isLoadingEntries = false → (loadLastEntries st now env).isLoadingEntries = false) ∧
    (startLoading st now).isLoadingEntries = true ∧
    (watchdogCallback st).isLoadingEntries = false ∧
    (∀ success : Bool, (finishLoading st success now).isLoadingEntries = false) := by
  refine ⟨fun h => load_inflight_noop st now env h,
          fun h => load_run_isLoading st now env h, rfl, ?_,
          fun s => finishLoading_isLoading st s now⟩
  simp only [watchdogCallback]
  split <;> rfl

/-- C3 witness: the single-flight guard instantiated on a concrete
in-flight state. -/
theorem C3_single_flight_witness :
    loadLastEntries { exSt with isLoadingEntries := true } 1000 exEnvOk
      = { exSt with isLoadingEntries := true } :=
  (C3_single_flight { exSt with isLoadingEntries := true } 1000 exEnvOk).1 rfl

/-- C4: every successful load cycle cancels the watchdog, clears
`isLoadingEntries`, stamps `lastSuccessfulLoad` with the current time,
resets `consecutiveErrors` to 0, and when the cadence was the degraded
2000ms one reschedules the recurring timer at the normal 500ms cadence. -/
theorem C4_success_cycle (st : St) (now : Nat) (env : LoadEnv)
    (hL : st.isLoadingEntries = false)
    (hD : ¬ now - st.lastSuccessfulLoad < 300)
    (hList : ¬ (st.listContent = none ∧ env.canCreateList = false))
    (hS : env.folder = none
      ∨ (∃ fid, env.folder = some fid ∧ hasActorsInFolder env.actors fid = false)
      ∨ env.renderThrows = false) :
    (loadLastEntries st now env).watchdog = none ∧
    (loadLastEntries st now env).isLoadingEntries = false ∧
    (loadLastEntries st now env).lastSuccessfulLoad = now ∧
    (loadLastEntries st now env).consecutiveErrors = 0 ∧
    (st.refreshIntervalId = some 2000 →
      (loadLastEntries st now env).refreshIntervalId = some 500) := by
  obtain ⟨h1, h2, h3⟩ := load_success_facts st now env hL hD hList hS
  refine ⟨load_run_watchdog st now env hL hD, load_run_isLoading st now env hL,
          h1, h2, fun h => ?_⟩
  rw [h3, h]
  rfl

/-- C4 witness: a successful cycle from the degraded cadence restores the
500ms cadence. -/
theorem C4_success_cycle_witness :
    (loadLastEntries degSt 1000 exEnvOk).refreshIntervalId = some 500 :=
  (C4_success_cycle degSt 1000 exEnvOk rfl (by decide) (by decide)
    (Or.inr (Or.inr rfl))).2.2.2.2 rfl

/-- C5: a cycle that never completes is force-completed by the watchdog,
which is armed at cycle start with a deadline 3000ms later and whose
callback lowers `isLoadingEntries`, increments `consecutiveErrors` by
exactly one and consumes the one-shot timeout (so it cannot fire again);
a cycle that does complete ends with the watchdog cancelled, so the
watchdog never fires for a completed cycle. -/
theorem C5_watchdog (st : St) (now : Nat) (env : LoadEnv)
    (hL : st.isLoadingEntries = false)
    (hD : ¬ now - st.lastSuccessfulLoad < 300) :
    (startLoading st now).watchdog = some (now + 3000) ∧
    (watchdogCallback (startLoading st now)).isLoadingEntries = false ∧
    (watchdogCallback (startLoading st now)).consecutiveErrors
      = st.consecutiveErrors + 1 ∧
    (watchdogCallback (startLoading st now)).watchdog = none ∧
    (loadLastEntries st now env).watchdog = none := by
  refine ⟨rfl, ?_, ?_, ?_, load_run_watchdog st now env hL hD⟩ <;>
    · simp only [watchdogCallback]
      split <;> rfl

/-- C5 witness: the watchdog facts instantiated on a concrete hung cycle
started at t=1000. -/
theorem C5_watchdog_witness :
    (watchdogCallback (startLoading exSt 1000)).consecutiveErrors = 1 :=
  (C5_watchdog exSt 1000 exEnvOk rfl (by decide)).2.2.1

/-- C6: `_getRecentActors` returns the folder's records sorted in
descending order of the number obtained by stripping non-digit characters
from each id (no digits counting as 0), with ties keeping their original
relative order (stable sort), truncated to at most 3 entries; on ids
`actor-9`, `actor-123`, `actor-45` the order is
`actor-123, actor-45, actor-9`. -/
theorem C6_recent_ordering (actors : List Actor) (fid : String) :
    getRecentActors actors fid
      = (sortDescBy actorSortKey (actorsOfFolder actors fid)).take 3 ∧
    (getRecentActors actors fid).length ≤ 3 ∧
    List.Pairwise (fun a b => actorSortKey b ≤ actorSortKey a)
      (getRecentActors actors fid) ∧
    (sortDescBy actorSortKey (actorsOfFolder actors fid)).Perm
      (actorsOfFolder actors fid) ∧
    (∀ k : Nat,
      (sortDescBy actorSortKey (actorsOfFolder actors fid)).filter
          (fun a => actorSortKey a == k)
        = (actorsOfFolder actors fid).filter (fun a => actorSortKey a == k)) ∧
    (getRecentActors exActors "pcrecords").map Actor.id
      = ["actor-123", "actor-45", "actor-9"] := by
  have htake : getRecentActors actors fid
      = (sortDescBy actorSortKey (actorsOfFolder actors fid)).take 3 := by
    simp only [getRecentActors]
    rcases Nat.le_total 3 (actorsOfFolder actors fid).length with h | h
    · rw [Nat.min_eq_left h]
    · rw [Nat.min_eq_right h,
          ← (sortDescBy_perm actorSortKey (actorsOfFolder actors fid)).length_eq,
          List.take_length,
          List.take_of_length_le (by
            rw [(sortDescBy_perm actorSortKey (actorsOfFolder actors fid)).length_eq]
            exact h)]
  refine ⟨htake, ?_, ?_, sortDescBy_perm actorSortKey _,
          fun k => filter_sortDescBy actorSortKey _ k, by decide⟩
  · rw [htake]
    exact List.length_take_le 3 _
  · rw [htake]
    exact List.Pairwise.sublist (List.take_sublist 3 _)
      (sortDescBy_pairwise actorSortKey _)

/-- C7 counterexample: for a record whose surname flag is unset but whose
firstName flag is "John", the rendered label is "UNKNOWN - John ", not the
generic actor-name fallback the claim requires whenever the
reference/surname field is not set. -/
theorem C7_counterexample :
    c7Actor.surname = none ∧
    generateActorsHTML [c7Actor] = [Row.actorRow "abc123" "UNKNOWN - John "] ∧
    actorLabel c7Actor ≠ c7Actor.name := by
  decide

/-- C7 (amended): every record passed to rendering yields a row whose label
is "REFERENCE - FIRSTNAME MIDDLENAME" (the reference defaulting to
"UNKNOWN" when the surname flag is unset or empty) whenever the reference
differs from "UNKNOWN" or the firstName is nonempty, and the label falls
back to the record's generic actor name exactly when the firstName is empty
and the reference is "UNKNOWN". -/
theorem C7_display_label (actors : List Actor) (a : Actor) (h : a ∈ actors) :
    Row.actorRow a.id (actorLabel a) ∈ generateActorsHTML actors ∧
    (flagOr a.surname "UNKNOWN" ≠ "UNKNOWN" ∨ flagOr a.firstName "" ≠ "" →
      actorLabel a = flagOr a.surname "UNKNOWN" ++ " - " ++ flagOr a.firstName ""
        ++ " " ++ flagOr a.middleName "") ∧
    (flagOr a.surname "UNKNOWN" = "UNKNOWN" → flagOr a.firstName "" = "" →
      actorLabel a = a.name) := by
  refine ⟨List.mem_map_of_mem _ h, ?_, ?_⟩
  · intro hcond
    have hneg : ¬ (flagOr a.firstName "" = "" ∧ flagOr a.surname "UNKNOWN" = "UNKNOWN") := by
      tauto
    simp [actorLabel, hneg]
  · intro h1 h2
    simp [actorLabel, h1, h2]

/-- C7 witness: the amended label rule instantiated on the record with an
unset surname flag and firstName "John". -/
theorem C7_display_label_witness :
    actorLabel c7Actor = flagOr c7Actor.surname "UNKNOWN" ++ " - "
      ++ flagOr c7Actor.firstName "" ++ " " ++ flagOr c7Actor.middleName "" :=
  (C7_display_label [c7Actor] c7Actor (by decide)).2.1 (Or.inr (by decide))

/-- C8: a stopped controller is never resurrected — when
`refreshIntervalId` is null, neither a full `loadLastEntries` run, nor
`_finishLoading` of a success or failure, nor a watchdog fire creates or
reschedules a recurring timer. -/
theorem C8_no_resurrection (st : St) (now : Nat) (env : LoadEnv) (success : Bool)
    (h : st.refreshIntervalId = none) :
    (loadLastEntries st now env).refreshIntervalId = none ∧
    (finishLoading st success now).refreshIntervalId = none ∧
    (watchdogCallback st).refreshIntervalId = none := by
  refine ⟨load_refresh_none st now env h, finishLoading_refresh_none st success now h, ?_⟩
  simp [watchdogCallback, h]

/-- C8 witness: no resurrection on a concrete stopped controller. -/
theorem C8_no_resurrection_witness :
    (loadLastEntries stoppedSt 1000 exEnvOk).refreshIntervalId = none :=
  (C8_no_resurrection stoppedSt 1000 exEnvOk true rfl).1

/-- C9: `forceDisplayLastEntries` leaves a non-empty rendered list
completely untouched (the state is returned unchanged, so content is never
cleared or replaced), and triggers `loadLastEntries` only when the rendered
list is empty or absent. -/
theorem C9_force_display (st : St) (now : Nat) (fenv : ForceEnv) (env : LoadEnv) :
    (∀ rows : List Row, st.listContent = some rows → rows ≠ [] →
      forceDisplayLastEntries st now fenv env = st) ∧
    (fenv.interfaceActive = true → fenv.sectionExists = true →
      st.listContent = some [] →
      forceDisplayLastEntries st now fenv env = loadLastEntries st now env) ∧
    (fenv.interfaceActive = true → fenv.sectionExists = true →
      st.listContent = none →
      forceDisplayLastEntries st now fenv env
        = loadLastEntries { st with listContent := some [] } now env) := by
  refine ⟨?_, ?_, ?_⟩
  · intro rows hrows hne
    rcases hA : fenv.interfaceActive with _ | _
    · simp [forceDisplayLastEntries, hA]
    · rcases hS : fenv.sectionExists with _ | _
      · simp [forceDisplayLastEntries, hA, hS]
      · rcases rows with _ | ⟨r, rs⟩
        · exact absurd rfl hne
        · simp [forceDisplayLastEntries, hA, hS, hrows]
  · intro hA hS hrows
    simp [forceDisplayLastEntries, hA, hS, hrows]
  · intro hA hS hrows
    simp [forceDisplayLastEntries, hA, hS, hrows]

/-- C9 witness: a concrete non-empty list is preserved untouched. -/
theorem C9_force_display_witness :
    forceDisplayLastEntries fullSt 1000 ⟨true, true⟩ exEnvOk = fullSt :=
  (C9_force_display fullSt 1000 ⟨true, true⟩ exEnvOk).1 [Row.noEntries] rfl
    (by decide)

/-- C10: a cycle that finds the PC Records folder missing or empty counts
as a success — it renders exactly one "No recent entries found" placeholder
row, stamps `lastSuccessfulLoad` with the current time, resets
`consecutiveErrors` to 0, ends with the loading flag down, and debounces
any further trigger arriving within the next 300ms. -/
theorem C10_empty_folder (st : St) (t1 t2 : Nat) (env env2 : LoadEnv)
    (hL : st.isLoadingEntries = false)
    (hD : ¬ t1 - st.lastSuccessfulLoad < 300)
    (hList : ¬ (st.listContent = none ∧ env.canCreateList = false))
    (hEmpty : env.folder = none
      ∨ ∃ fid, env.folder = some fid ∧ hasActorsInFolder env.actors fid = false)
    (hNear : t2 - t1 < 300) :
    (loadLastEntries st t1 env).listContent = some [Row.noEntries] ∧
    (loadLastEntries st t1 env).lastSuccessfulLoad = t1 ∧
    (loadLastEntries st t1 env).consecutiveErrors = 0 ∧
    (loadLastEntries st t1 env).isLoadingEntries = false ∧
    loadLastEntries (loadLastEntries st t1 env) t2 env2 = loadLastEntries st t1 env := by
  have hS : env.folder = none
      ∨ (∃ fid, env.folder = some fid ∧ hasActorsInFolder env.actors fid = false)
      ∨ env.renderThrows = false := by
    rcases hEmpty with hf | hf
    · exact Or.inl hf
    · exact Or.inr (Or.inl hf)
  obtain ⟨h1, h2, _⟩ := load_success_facts st t1 env hL hD hList hS
  have hIdle := load_run_isLoading st t1 env hL
  refine ⟨load_empty_listContent st t1 env hL hD hList hEmpty, h1, h2, hIdle, ?_⟩
  exact load_debounced _ t2 env2 hIdle (by rw [h1]; exact hNear)

/-- C10 witness: the empty-folder cycle instantiated at t=1000 with a
second trigger at t=1100. -/
theorem C10_empty_folder_witness :
    (loadLastEntries exSt 1000 exEnvEmpty).listContent = some [Row.noEntries] :=
  (C10_empty_folder exSt 1000 1100 exEnvEmpty exEnvEmpty rfl (by decide) (by decide)
    (Or.inl rfl) (by decide)).1

end DGUI
